import Mathlib

/-!
Shallow embedding of the online-learning-platform server
(`src/index.js`, with the `/health` variant of `src/unnamed/part_000`).

The server is a REST API over two MongoDB collections, `courses` and
`enrollments`.  Request bodies are JSON objects; we model JSON scalar
values by `JsValue`, JSON objects by association lists (`Doc`), and the
store by `DB`.  Each Express handler becomes a pure function from the
request data and the store state to a response record and the new state.
-/

set_option autoImplicit false

namespace OLP

/-- A JavaScript/JSON scalar value as it appears in request bodies.
Absence of a field (`undefined`) is modelled by `Option.none` at use
sites, so it needs no constructor here. -/
inductive JsValue where
  | str (s : String)
  | num (n : Int)
  | bool (b : Bool)
  | null
  deriving DecidableEq, Repr

/-- JavaScript truthiness of a value: `""`, `0`, `false` and `null` are
falsy, everything else truthy (mirrors `!x` checks in the handlers). -/
def JsValue.truthy : JsValue → Bool
  | .str s => s ≠ ""
  | .num n => n ≠ 0
  | .bool b => b
  | .null => false

/-- Truthiness of a possibly-absent field: `undefined` is falsy. -/
def truthyOpt : Option JsValue → Bool
  | none => false
  | some v => v.truthy

/-- A JSON object: an association list from field names to values.
Objects arriving from `express.json()` have pairwise-distinct keys. -/
abbrev Doc := List (String × JsValue)

/-- Field lookup (first occurrence); `none` models `undefined`. -/
def Doc.get : Doc → String → Option JsValue
  | [], _ => none
  | (k, v) :: rest, key => if k = key then some v else Doc.get rest key

/-- Setting a field: replace the first occurrence in place, or append
when the key is absent (mirrors JS property assignment / `$set`). -/
def Doc.set : Doc → String → JsValue → Doc
  | [], key, v => [(key, v)]
  | (k, w) :: rest, key, v =>
    if k = key then (key, v) :: rest else (k, w) :: Doc.set rest key v

/-- Removing a field (mirrors `delete updateData._id`). -/
def Doc.erase : Doc → String → Doc
  | [], _ => []
  | (k, w) :: rest, key =>
    if k = key then Doc.erase rest key else (k, w) :: Doc.erase rest key

/-- MongoDB `$set` with a partial document: each field of the update is
written into the stored document, left to right. -/
def Doc.applySet (d : Doc) (u : Doc) : Doc :=
  u.foldl (fun acc kv => acc.set kv.1 kv.2) d

/-- Hexadecimal digit test, as in the driver's ObjectId hex regexp. -/
def isHexDigit (c : Char) : Bool :=
  c.isDigit || ('a' ≤ c && c ≤ 'f') || ('A' ≤ c && c ≤ 'F')

/-- `ObjectId.isValid` of the MongoDB Node driver on a string input:
a 12-character string (taken as 12 bytes) or 24 hexadecimal characters. -/
def ObjectId.isValid (s : String) : Bool :=
  s.length = 12 || (s.length = 24 && s.data.all isHexDigit)

/-- Lowercase hexadecimal digit for `n < 16`. -/
def hexDigit (n : Nat) : Char :=
  if n < 10 then Char.ofNat (48 + n) else Char.ofNat (87 + n)

/-- Canonical 24-character lowercase hexadecimal rendering of a number,
most significant digit first. -/
def toHex24 (n : Nat) : String :=
  ⟨((List.range 24).reverse).map (fun i => hexDigit (n / 16 ^ i % 16))⟩

/-- Hex encoding of a 12-character string taken as bytes, as
`new ObjectId` does for length-12 string inputs. -/
def hexOfBytes (s : String) : String :=
  ⟨(s.data.map (fun c => [hexDigit (c.toNat % 256 / 16), hexDigit (c.toNat % 16)])).flatten⟩

/-- Lowercasing of a string (hex strings are normalised by the driver). -/
def strToLower (s : String) : String :=
  ⟨s.data.map Char.toLower⟩

/-- `new ObjectId(s)` on a string the driver accepts, rendered as the
canonical lowercase hex identifier it denotes. -/
def ObjectId.ofString (s : String) : String :=
  if s.length = 24 then strToLower s else hexOfBytes s

/-- Identifier assigned by the store to the `n`-th inserted document:
a canonical 24-hex ObjectId string, distinct for distinct `n` below
`16 ^ 24`. -/
def genOid (n : Nat) : String :=
  toHex24 (n % 16 ^ 24)

/-- A stored course: the store-assigned `_id` plus the other fields. -/
structure Course where
  id : String
  doc : Doc
  deriving DecidableEq

/-- A stored enrollment record. -/
structure Enrollment where
  id : String
  userEmail : String
  courseId : String
  enrolledAt : Nat
  deriving DecidableEq

/-- The persistent store: both collections plus the id-generation
counter. -/
structure DB where
  courses : List Course
  enrollments : List Enrollment
  nextId : Nat
  deriving DecidableEq

/-- `findOne({_id})` on the courses collection. -/
def DB.findCourse (db : DB) (oid : String) : Option Course :=
  db.courses.find? (fun c => c.id = oid)

/-- Response of `POST /courses`. -/
structure CreateRes where
  status : Nat
  success : Bool
  message : String
  courseId : Option String
  deriving DecidableEq, Repr

/-- Response of `GET /courses/:id`; `data` carries the full record as
the pair of its `_id` and its other fields. -/
structure GetRes where
  status : Nat
  success : Bool
  message : Option String
  data : Option (String × Doc)
  deriving DecidableEq

/-- Response of `PUT /courses/:id`. -/
structure UpdateRes where
  status : Nat
  success : Bool
  message : String
  modifiedCount : Option Nat
  deriving DecidableEq, Repr

/-- Response of `DELETE /courses/:id`. -/
structure DeleteRes where
  status : Nat
  success : Bool
  message : String
  deriving DecidableEq, Repr

/-- Response of `POST /enrollments`. -/
structure EnrollRes where
  status : Nat
  success : Bool
  message : String
  enrollmentId : Option String
  deriving DecidableEq, Repr

/-- One item of the joined view returned by `GET /enrollments`. -/
structure EnrolledView where
  enrollmentId : String
  userEmail : String
  enrolledAt : Nat
  course : String × Doc
  deriving DecidableEq

/-- Response of `GET /enrollments`. -/
structure ListEnrollRes where
  status : Nat
  success : Bool
  message : Option String
  count : Option Nat
  data : Option (List EnrolledView)
  deriving DecidableEq

/-- Health response of the lazily-connecting variant
(`src/unnamed/part_000`): `statusText` is the `status` body field. -/
structure HealthRes where
  status : Nat
  statusText : String
  database : String
  deriving DecidableEq, Repr

/-- `GET /health` of `src/unnamed/part_000`: connects to the store
inside a try/catch; a connection failure yields 500 and is reported in
the body, the process keeps serving. -/
def healthHandler (storeReachable : Bool) : HealthRes :=
  if storeReachable then
    { status := 200, statusText := "OK", database := "Connected" }
  else
    { status := 500, statusText := "ERROR", database := "Disconnected" }

/-- `GET /health` of `src/index.js`: no store call is made; the handler
reports whether the global `db` handle is set and always answers 200. -/
def healthHandlerIndex (dbConnected : Bool) : HealthRes :=
  { status := 200, statusText := "OK",
    database := if dbConnected then "Connected" else "Disconnected" }

/-- `POST /courses`: presence/truthiness validation of `title`, `price`,
`category`; default `isFeatured := false` when the field is `undefined`;
insert with a fresh store-assigned identifier. -/
def postCourses (db : DB) (courseData : Doc) : CreateRes × DB :=
  if !(truthyOpt (courseData.get "title")) || !(truthyOpt (courseData.get "price"))
      || !(truthyOpt (courseData.get "category")) then
    ({ status := 400, success := false, message := "Missing required fields",
       courseId := none }, db)
  else
    let courseData :=
      if (courseData.get "isFeatured").isNone then
        courseData.set "isFeatured" (JsValue.bool false)
      else courseData
    let newId := genOid db.nextId
    ({ status := 201, success := true, message := "Course created successfully",
       courseId := some newId },
     { db with courses := db.courses ++ [⟨newId, courseData⟩], nextId := db.nextId + 1 })

/-- `GET /courses/:id`: ObjectId format validation, then `findOne`. -/
def getCourseById (db : DB) (id : String) : GetRes :=
  if !(ObjectId.isValid id) then
    { status := 400, success := false, message := some "Invalid course ID format",
      data := none }
  else
    match db.findCourse (ObjectId.ofString id) with
    | none =>
      { status := 404, success := false, message := some "Course not found", data := none }
    | some course =>
      { status := 200, success := true, message := none, data := some (course.id, course.doc) }

/-- `updateOne({_id}, {$set: u})` on the courses collection.  MongoDB
rejects an empty `$set` document before matching (error code 9,
"'$set' is empty"); the driver surfaces that as a thrown error, modelled
by `none`.  Otherwise the first matching record is rewritten and the
matched and modified counts are reported. -/
def DB.updateCourse (db : DB) (oid : String) (u : Doc) :
    Option ((Nat × Nat) × DB) :=
  if u = [] then none
  else
    match db.findCourse oid with
    | none => some ((0, 0), db)
    | some course =>
      let newDoc := course.doc.applySet u
      let modified := if newDoc = course.doc then 0 else 1
      some ((1, modified),
        { db with courses :=
           db.courses.map (fun c => if c.id = oid then { c with doc := newDoc } else c) })

/-- `PUT /courses/:id`: format validation, strip `_id` from the update
body, `$set` the remaining fields, 404 when nothing matched.  When the
stripped body is empty the store rejects the `$set` and the handler's
catch answers 500 "Error updating course" with the store unchanged. -/
def putCourseById (db : DB) (id : String) (updateData : Doc) : UpdateRes × DB :=
  if !(ObjectId.isValid id) then
    ({ status := 400, success := false, message := "Invalid course ID format",
       modifiedCount := none }, db)
  else
    let updateData := updateData.erase "_id"
    match db.updateCourse (ObjectId.ofString id) updateData with
    | none =>
      ({ status := 500, success := false, message := "Error updating course",
         modifiedCount := none }, db)
    | some r =>
      if r.1.1 = 0 then
        ({ status := 404, success := false, message := "Course not found",
           modifiedCount := none }, r.2)
      else
        ({ status := 200, success := true, message := "Course updated successfully",
           modifiedCount := some r.1.2 }, r.2)

/-- `DELETE /courses/:id`: format validation, `deleteOne`, 404 when the
deleted count is zero. -/
def deleteCourseById (db : DB) (id : String) : DeleteRes × DB :=
  if !(ObjectId.isValid id) then
    ({ status := 400, success := false, message := "Invalid course ID format" }, db)
  else
    let oid := ObjectId.ofString id
    let deletedCount := if (db.findCourse oid).isSome then 1 else 0
    let db' := { db with courses := db.courses.eraseP (fun c => c.id = oid) }
    if deletedCount = 0 then
      ({ status := 404, success := false, message := "Course not found" }, db)
    else
      ({ status := 200, success := true, message := "Course deleted successfully" }, db')

/-- `POST /enrollments`: require both fields, validate the courseId
format, require the referenced course to exist, reject a duplicate
`(userEmail, courseId)` pair, then insert with an `enrolledAt` stamp of
the current time `now`. -/
def postEnrollments (db : DB) (userEmail courseId : String) (now : Nat) :
    EnrollRes × DB :=
  if userEmail = "" || courseId = "" then
    ({ status := 400, success := false,
       message := "userEmail and courseId are required", enrollmentId := none }, db)
  else if !(ObjectId.isValid courseId) then
    ({ status := 400, success := false, message := "Invalid course ID format",
       enrollmentId := none }, db)
  else
    match db.findCourse (ObjectId.ofString courseId) with
    | none =>
      ({ status := 404, success := false, message := "Course not found",
         enrollmentId := none }, db)
    | some _ =>
      if (db.enrollments.find?
            (fun e => e.userEmail = userEmail ∧ e.courseId = courseId)).isSome then
        ({ status := 400, success := false,
           message := "User already enrolled in this course", enrollmentId := none }, db)
      else
        let newId := genOid db.nextId
        ({ status := 201, success := true, message := "Enrollment successful",
           enrollmentId := some newId },
         { db with
            enrollments := db.enrollments ++ [⟨newId, userEmail, courseId, now⟩],
            nextId := db.nextId + 1 })

/-- The per-enrollment course-population loop of `GET /enrollments`:
one `findOne` per enrollment, dropping enrollments whose course is
missing. -/
def populate (db : DB) : List Enrollment → List EnrolledView
  | [] => []
  | e :: rest =>
    match db.findCourse (ObjectId.ofString e.courseId) with
    | some course =>
      ⟨e.id, e.userEmail, e.enrolledAt, (course.id, course.doc)⟩ :: populate db rest
    | none => populate db rest

/-- `GET /enrollments?userEmail=`: require the parameter (an absent
query parameter reads as falsy, i.e. `""` here), filter the enrollments
by exact email match, then join each against the courses collection. -/
def getEnrollments (db : DB) (userEmail : String) : ListEnrollRes :=
  if userEmail = "" then
    { status := 400, success := false,
      message := some "userEmail query parameter is required",
      count := none, data := none }
  else
    let enrollments := db.enrollments.filter (fun e => e.userEmail = userEmail)
    let enrolledCourses := populate db enrollments
    { status := 200, success := true, message := none,
      count := some enrolledCourses.length, data := some enrolledCourses }

/-! ### Helper lemmas about documents and identifiers -/

theorem Doc.get_set_self (d : Doc) (k : String) (v : JsValue) :
    (d.set k v).get k = some v := by
  induction d with
  | nil => simp [Doc.set, Doc.get]
  | cons kv rest ih =>
    by_cases h : kv.1 = k <;> simp [Doc.set, Doc.get, h, ih]

theorem Doc.get_set_ne (d : Doc) (k k' : String) (v : JsValue) (h : k' ≠ k) :
    (d.set k' v).get k = d.get k := by
  induction d with
  | nil => simp [Doc.set, Doc.get, h]
  | cons kv rest ih =>
    by_cases hk : kv.1 = k'
    · simp [Doc.set, Doc.get, hk, h]
    · simp [Doc.set, Doc.get, hk, ih]

theorem Doc.set_of_get_none (d : Doc) (k : String) (v : JsValue) (h : d.get k = none) :
    d.set k v = d ++ [(k, v)] := by
  induction d with
  | nil => simp [Doc.set]
  | cons kv rest ih =>
    by_cases hk : kv.1 = k
    · simp [Doc.get, hk] at h
    · simp [Doc.get, hk] at h
      simp [Doc.set, hk, ih h]

theorem Doc.get_append_right (d d' : Doc) (k : String) (h : d.get k = none) :
    Doc.get (d ++ d') k = d'.get k := by
  induction d with
  | nil => simp
  | cons kv rest ih =>
    by_cases hk : kv.1 = k
    · simp [Doc.get, hk] at h
    · simp [Doc.get, hk] at h ⊢
      exact ih h

theorem hexDigit_hex : ∀ k < 16, isHexDigit (hexDigit k) = true := by decide

theorem hexDigit_lower : ∀ k < 16, (hexDigit k).toLower = hexDigit k := by decide

theorem toHex24_length (n : Nat) : (toHex24 n).length = 24 := by
  simp [toHex24, String.length]

theorem toHex24_all_hex (n : Nat) : (toHex24 n).data.all isHexDigit = true := by
  simp only [toHex24, List.all_eq_true]
  intro c hc
  simp only [List.mem_map] at hc
  obtain ⟨i, _, rfl⟩ := hc
  exact hexDigit_hex _ (Nat.mod_lt _ (by norm_num))

theorem genOid_isValid (n : Nat) : ObjectId.isValid (genOid n) = true := by
  have h1 : (genOid n).length = 24 := toHex24_length _
  have h2 : (genOid n).data.all isHexDigit = true := toHex24_all_hex _
  simp [ObjectId.isValid, h1, h2]

theorem strToLower_toHex24 (n : Nat) : strToLower (toHex24 n) = toHex24 n := by
  unfold strToLower toHex24
  congr 1
  rw [List.map_map]
  apply List.map_congr_left
  intro i _
  simp only [Function.comp]
  exact hexDigit_lower _ (Nat.mod_lt _ (by norm_num))

theorem ofString_genOid (n : Nat) : ObjectId.ofString (genOid n) = genOid n := by
  simp [ObjectId.ofString, genOid, toHex24_length, strToLower_toHex24]

theorem isValid_empty_false : ObjectId.isValid "" = false := by decide

/-! ### C6: creation with a missing required field -/

/-- C6: when `title`, `price` or `category` is absent from the creation
input, `POST /courses` answers 400 "Missing required fields" and the
store is unchanged (no record persisted, no write attempted). -/
theorem createCourse_missing_field (db : DB) (d : Doc)
    (h : d.get "title" = none ∨ d.get "price" = none ∨ d.get "category" = none) :
    postCourses db d =
      ({ status := 400, success := false, message := "Missing required fields",
         courseId := none }, db) := by
  rcases h with h | h | h <;> simp [postCourses, truthyOpt, h]

theorem createCourse_missing_field_witness :
    (Doc.get [("price", JsValue.num 10)] "title" = none ∨
      Doc.get [("price", JsValue.num 10)] "price" = none ∨
      Doc.get [("price", JsValue.num 10)] "category" = none) ∧
    postCourses ⟨[], [], 0⟩ [("price", JsValue.num 10)] =
      ({ status := 400, success := false, message := "Missing required fields",
         courseId := none }, ⟨[], [], 0⟩) :=
  ⟨Or.inl (by decide), createCourse_missing_field _ _ (Or.inl (by decide))⟩

/-! ### C10: truthiness is the whole validation -/

/-- C10: `POST /courses` rejects present-but-falsy required fields (price
`0`, empty-string title or category) with 400 and no write; and a body
carrying only truthy `title`, `price`, `category` is accepted with 201
and persisted as-is plus the defaulted `isFeatured`, although all other
spec-required attributes are absent. -/
theorem createCourse_truthiness_only (db : DB) (d : Doc) :
    ((d.get "title" = some (JsValue.str "") ∨ d.get "price" = some (JsValue.num 0) ∨
        d.get "category" = some (JsValue.str "")) →
      postCourses db d =
        ({ status := 400, success := false, message := "Missing required fields",
           courseId := none }, db)) ∧
    (∀ t p c : JsValue, t.truthy = true → p.truthy = true → c.truthy = true →
      postCourses db [("title", t), ("price", p), ("category", c)] =
        ({ status := 201, success := true, message := "Course created successfully",
           courseId := some (genOid db.nextId) },
         { db with
            courses := db.courses ++
              [⟨genOid db.nextId,
                [("title", t), ("price", p), ("category", c),
                 ("isFeatured", JsValue.bool false)]⟩],
            nextId := db.nextId + 1 })) := by
  constructor
  · rintro (h | h | h) <;> simp [postCourses, truthyOpt, h, JsValue.truthy]
  · intro t p c ht hp hc
    simp [postCourses, truthyOpt, Doc.get, Doc.set, ht, hp, hc]

theorem createCourse_truthiness_only_witness :
    (Doc.get [("title", JsValue.str "Intro"), ("price", JsValue.num 0),
        ("category", JsValue.str "Dev")] "price" = some (JsValue.num 0) ∧
      postCourses ⟨[], [], 0⟩
          [("title", JsValue.str "Intro"), ("price", JsValue.num 0),
           ("category", JsValue.str "Dev")] =
        ({ status := 400, success := false, message := "Missing required fields",
           courseId := none }, ⟨[], [], 0⟩)) ∧
    ((JsValue.str "Intro").truthy = true ∧ (JsValue.num 10).truthy = true ∧
      (JsValue.str "Dev").truthy = true ∧
      postCourses ⟨[], [], 0⟩
          [("title", JsValue.str "Intro"), ("price", JsValue.num 10),
           ("category", JsValue.str "Dev")] =
        ({ status := 201, success := true, message := "Course created successfully",
           courseId := some (genOid 0) },
         ⟨[⟨genOid 0,
            [("title", JsValue.str "Intro"), ("price", JsValue.num 10),
             ("category", JsValue.str "Dev"), ("isFeatured", JsValue.bool false)]⟩],
          [], 1⟩)) :=
  ⟨⟨by decide,
    (createCourse_truthiness_only ⟨[], [], 0⟩ _).1 (Or.inr (Or.inl (by decide)))⟩,
   ⟨by decide, by decide, by decide,
    (createCourse_truthiness_only ⟨[], [], 0⟩ []).2 _ _ _ (by decide) (by decide) (by decide)⟩⟩

/-! ### C3: malformed identifiers -/

/-- C3: an identifier failing the ObjectId format check makes every
id-taking endpoint answer 400 before touching the store: the response is
the same for every store state, never 404 or 500, and the state is
returned unchanged.  (For `POST /enrollments`, an empty `courseId` is
caught by the earlier missing-fields check, still 400 but with the
missing-fields message.) -/
theorem invalidId_endpoints_400 (id : String) (hv : ObjectId.isValid id = false) :
    (∀ db : DB, getCourseById db id =
      { status := 400, success := false, message := some "Invalid course ID format",
        data := none }) ∧
    (∀ (db : DB) (u : Doc), putCourseById db id u =
      ({ status := 400, success := false, message := "Invalid course ID format",
         modifiedCount := none }, db)) ∧
    (∀ db : DB, deleteCourseById db id =
      ({ status := 400, success := false, message := "Invalid course ID format" }, db)) ∧
    (∀ (db : DB) (u : String) (now : Nat), u ≠ "" →
      (postEnrollments db u id now).1.status = 400 ∧
      (postEnrollments db u id now).2 = db ∧
      (id ≠ "" → postEnrollments db u id now =
        ({ status := 400, success := false, message := "Invalid course ID format",
           enrollmentId := none }, db))) := by
  refine ⟨fun db => ?_, fun db u => ?_, fun db => ?_, fun db u now hu => ?_⟩
  · simp [getCourseById, hv]
  · simp [putCourseById, hv]
  · simp [deleteCourseById, hv]
  · by_cases hid : id = ""
    · subst hid; simp [postEnrollments, hu]
    · simp [postEnrollments, hu, hid, hv]

theorem invalidId_endpoints_400_witness :
    ObjectId.isValid "not-an-id" = false ∧
    getCourseById ⟨[], [], 0⟩ "not-an-id" =
      { status := 400, success := false, message := some "Invalid course ID format",
        data := none } ∧
    putCourseById ⟨[], [], 0⟩ "not-an-id" [] =
      ({ status := 400, success := false, message := "Invalid course ID format",
         modifiedCount := none }, ⟨[], [], 0⟩) ∧
    deleteCourseById ⟨[], [], 0⟩ "not-an-id" =
      ({ status := 400, success := false, message := "Invalid course ID format" },
       ⟨[], [], 0⟩) ∧
    postEnrollments ⟨[], [], 0⟩ "a@b.c" "not-an-id" 0 =
      ({ status := 400, success := false, message := "Invalid course ID format",
         enrollmentId := none }, ⟨[], [], 0⟩) :=
  ⟨by decide,
   (invalidId_endpoints_400 "not-an-id" (by decide)).1 _,
   (invalidId_endpoints_400 "not-an-id" (by decide)).2.1 _ _,
   (invalidId_endpoints_400 "not-an-id" (by decide)).2.2.1 _,
   ((invalidId_endpoints_400 "not-an-id" (by decide)).2.2.2 _ _ 0 (by decide)).2.2
     (by decide)⟩

/-! ### C7: the health probe -/

/-- C7 counterexample: in `src/index.js` the health probe never answers
500; with the store handle absent (store unreachable) it still answers
200, merely reporting "Disconnected" in the body. -/
theorem health_counterexample :
    (healthHandlerIndex false).status ≠ 500 ∧
    (healthHandlerIndex false).status = 200 ∧
    (healthHandlerIndex false).database = "Disconnected" := by decide

/-- C7 amended: the lazily-connecting variant (`src/unnamed/part_000`)
answers 200 when the store connection succeeds and 500 with the failure
reported in the response body when it fails, while the `src/index.js`
variant's probe always answers 200, reporting only "Connected" or
"Disconnected" in the body; in both variants the probe returns a
response rather than terminating the process. -/
theorem health_handlers_spec :
    (healthHandler true).status = 200 ∧ (healthHandler true).database = "Connected" ∧
    (healthHandler false).status = 500 ∧
    (healthHandler false).statusText = "ERROR" ∧
    (healthHandler false).database = "Disconnected" ∧
    (∀ conn : Bool, (healthHandlerIndex conn).status = 200) ∧
    (healthHandlerIndex false).database = "Disconnected" := by decide

/-! ### C8: enrolling in an unknown course -/

/-- C8: a well-formed `courseId` that matches no stored course makes
`POST /enrollments` answer 404 "Course not found" and insert nothing. -/
theorem enroll_unknownCourse_404 (db : DB) (u c : String) (now : Nat)
    (hu : u ≠ "") (hv : ObjectId.isValid c = true)
    (hmiss : db.findCourse (ObjectId.ofString c) = none) :
    postEnrollments db u c now =
      ({ status := 404, success := false, message := "Course not found",
         enrollmentId := none }, db) := by
  have hc : c ≠ "" := by
    intro h
    rw [h, isValid_empty_false] at hv
    exact Bool.noConfusion hv
  simp [postEnrollments, hu, hc, hv, hmiss]

theorem enroll_unknownCourse_404_witness :
    ("a@b.c" : String) ≠ "" ∧
    ObjectId.isValid "aaaaaaaaaaaaaaaaaaaaaaaa" = true ∧
    DB.findCourse ⟨[], [], 0⟩ (ObjectId.ofString "aaaaaaaaaaaaaaaaaaaaaaaa") = none ∧
    postEnrollments ⟨[], [], 0⟩ "a@b.c" "aaaaaaaaaaaaaaaaaaaaaaaa" 7 =
      ({ status := 404, success := false, message := "Course not found",
         enrollmentId := none }, ⟨[], [], 0⟩) :=
  ⟨by decide, by decide, by decide,
   enroll_unknownCourse_404 _ _ _ 7 (by decide) (by decide) (by decide)⟩

/-! ### C2: sequential duplicate enrollment -/

/-- C2: once `Enroll(u, c)` has succeeded (status 201), an identical
sequential call answers 400 "User already enrolled in this course" and
leaves the store exactly as the first call left it: no new enrollment
record is inserted. -/
theorem enroll_duplicate_400 (db : DB) (u c : String) (t1 t2 : Nat)
    (h : (postEnrollments db u c t1).1.status = 201) :
    postEnrollments (postEnrollments db u c t1).2 u c t2 =
      ({ status := 400, success := false,
         message := "User already enrolled in this course", enrollmentId := none },
       (postEnrollments db u c t1).2) := by
  by_cases h0 : u = "" ∨ c = ""
  · exfalso; rcases h0 with h0 | h0 <;> simp [postEnrollments, h0] at h
  push_neg at h0
  obtain ⟨hu, hc⟩ := h0
  by_cases hv : ObjectId.isValid c
  · cases hfind : db.findCourse (ObjectId.ofString c) with
    | none => exfalso; simp [postEnrollments, hu, hc, hv, hfind] at h
    | some course =>
      by_cases hdup : ∃ e ∈ db.enrollments, e.userEmail = u ∧ e.courseId = c
      · exfalso; simp [postEnrollments, hu, hc, hv, hfind, hdup] at h
      · have hdb1 : (postEnrollments db u c t1).2 =
            { db with
               enrollments := db.enrollments ++ [⟨genOid db.nextId, u, c, t1⟩],
               nextId := db.nextId + 1 } := by
          simp [postEnrollments, hu, hc, hv, hfind, hdup]
        rw [hdb1]
        have hfind2 :
            DB.findCourse
              { db with
                 enrollments := db.enrollments ++ [⟨genOid db.nextId, u, c, t1⟩],
                 nextId := db.nextId + 1 } (ObjectId.ofString c) = some course := hfind
        have hmem : ∃ e ∈ db.enrollments ++ [⟨genOid db.nextId, u, c, t1⟩],
            e.userEmail = u ∧ e.courseId = c :=
          ⟨⟨genOid db.nextId, u, c, t1⟩, by simp, rfl, rfl⟩
        simp [postEnrollments, hu, hc, hv, hfind2, hmem]
  · exfalso; simp [postEnrollments, hu, hc, hv] at h

theorem enroll_duplicate_400_witness :
    (postEnrollments ⟨[⟨"aaaaaaaaaaaaaaaaaaaaaaaa", []⟩], [], 1⟩
        "a@b.c" "aaaaaaaaaaaaaaaaaaaaaaaa" 5).1.status = 201 ∧
    postEnrollments
        (postEnrollments ⟨[⟨"aaaaaaaaaaaaaaaaaaaaaaaa", []⟩], [], 1⟩
          "a@b.c" "aaaaaaaaaaaaaaaaaaaaaaaa" 5).2
        "a@b.c" "aaaaaaaaaaaaaaaaaaaaaaaa" 6 =
      ({ status := 400, success := false,
         message := "User already enrolled in this course", enrollmentId := none },
       (postEnrollments ⟨[⟨"aaaaaaaaaaaaaaaaaaaaaaaa", []⟩], [], 1⟩
          "a@b.c" "aaaaaaaaaaaaaaaaaaaaaaaa" 5).2) :=
  ⟨by decide, enroll_duplicate_400 _ _ _ 5 6 (by decide)⟩

/-! ### C9: deletion is not repeatable -/

theorem find?_eraseP_eq_none (l : List Course) (oid : String)
    (h : (l.map Course.id).Nodup) :
    (l.eraseP (fun c => c.id = oid)).find? (fun c => c.id = oid) = none := by
  induction l with
  | nil => simp
  | cons c rest ih =>
    rw [List.map_cons, List.nodup_cons] at h
    by_cases hc : c.id = oid
    · rw [List.eraseP_cons_of_pos (by simp [hc])]
      rw [List.find?_eq_none]
      intro x hx
      simp only [decide_eq_true_eq]
      intro hxid
      exact h.1 (by
        have : x.id ∈ rest.map Course.id := List.mem_map_of_mem Course.id hx
        rwa [hxid, ← hc] at this)
    · rw [List.eraseP_cons_of_neg (by simp [hc])]
      rw [List.find?_cons_of_neg _ (by simp [hc])]
      exact ih h.2

/-- C9: with store identifiers unique (as the store guarantees), after a
successful `DELETE /courses/:id` a second identical call answers 404
"Course not found" and leaves the store untouched; likewise a delete for
a valid id matching nothing answers 404 and changes nothing. -/
theorem deleteCourse_idempotent (db : DB) (id : String)
    (hv : ObjectId.isValid id = true)
    (hnodup : (db.courses.map Course.id).Nodup) :
    ((deleteCourseById db id).1.status = 200 →
      deleteCourseById (deleteCourseById db id).2 id =
        ({ status := 404, success := false, message := "Course not found" },
         (deleteCourseById db id).2)) ∧
    (db.findCourse (ObjectId.ofString id) = none →
      deleteCourseById db id =
        ({ status := 404, success := false, message := "Course not found" }, db)) := by
  cases hfind : db.findCourse (ObjectId.ofString id) with
  | none =>
    constructor
    · intro h200
      exfalso
      simp [deleteCourseById, hv, hfind] at h200
    · intro _
      simp [deleteCourseById, hv, hfind]
  | some course =>
    constructor
    · intro _
      have hdb1 : (deleteCourseById db id).2 =
          { db with courses :=
              db.courses.eraseP (fun c => c.id = ObjectId.ofString id) } := by
        simp [deleteCourseById, hv, hfind]
      rw [hdb1]
      have hnone : DB.findCourse
          { db with courses :=
              db.courses.eraseP (fun c => c.id = ObjectId.ofString id) }
          (ObjectId.ofString id) = none :=
        find?_eraseP_eq_none db.courses (ObjectId.ofString id) hnodup
      simp [deleteCourseById, hv, hnone]
    · intro habs
      exact Option.noConfusion habs

theorem deleteCourse_idempotent_witness :
    ObjectId.isValid "aaaaaaaaaaaaaaaaaaaaaaaa" = true ∧
    (List.map Course.id [⟨"aaaaaaaaaaaaaaaaaaaaaaaa", []⟩]).Nodup ∧
    (deleteCourseById ⟨[⟨"aaaaaaaaaaaaaaaaaaaaaaaa", []⟩], [], 1⟩
        "aaaaaaaaaaaaaaaaaaaaaaaa").1.status = 200 ∧
    deleteCourseById
        (deleteCourseById ⟨[⟨"aaaaaaaaaaaaaaaaaaaaaaaa", []⟩], [], 1⟩
          "aaaaaaaaaaaaaaaaaaaaaaaa").2 "aaaaaaaaaaaaaaaaaaaaaaaa" =
      ({ status := 404, success := false, message := "Course not found" },
       (deleteCourseById ⟨[⟨"aaaaaaaaaaaaaaaaaaaaaaaa", []⟩], [], 1⟩
          "aaaaaaaaaaaaaaaaaaaaaaaa").2) :=
  ⟨by decide, by decide, by decide,
   (deleteCourse_idempotent ⟨[⟨"aaaaaaaaaaaaaaaaaaaaaaaa", []⟩], [], 1⟩
      "aaaaaaaaaaaaaaaaaaaaaaaa" (by decide) (by decide)).1 (by decide)⟩

/-! ### C4: partial update semantics -/

theorem Doc.applySet_nil (d : Doc) : d.applySet [] = d := rfl

theorem Doc.applySet_cons (d : Doc) (kv : String × JsValue) (rest : Doc) :
    d.applySet (kv :: rest) = (d.set kv.1 kv.2).applySet rest := rfl

theorem Doc.get_eq_none_of_not_mem (d : Doc) (k : String)
    (h : k ∉ d.map Prod.fst) : d.get k = none := by
  induction d with
  | nil => rfl
  | cons kv rest ih =>
    rw [List.map_cons, List.mem_cons] at h
    push_neg at h
    have hne : ¬kv.1 = k := fun hk => h.1 hk.symm
    simp [Doc.get, hne, ih h.2]

theorem Doc.get_applySet_of_none : ∀ (u d : Doc) (k : String),
    u.get k = none → (d.applySet u).get k = d.get k
  | [], _, _, _ => rfl
  | kv :: rest, d, k, h => by
    by_cases hk : kv.1 = k
    · simp [Doc.get, hk] at h
    · rw [Doc.applySet_cons,
        Doc.get_applySet_of_none rest _ k (by simpa [Doc.get, hk] using h)]
      exact Doc.get_set_ne d k kv.1 kv.2 hk

theorem Doc.get_applySet_of_some : ∀ (u d : Doc) (k : String) (v : JsValue),
    (u.map Prod.fst).Nodup → u.get k = some v → (d.applySet u).get k = some v
  | [], _, _, _, _, h => by simp [Doc.get] at h
  | kv :: rest, d, k, v, hnd, h => by
    rw [List.map_cons, List.nodup_cons] at hnd
    by_cases hk : kv.1 = k
    · have hv2 : kv.2 = v := by simpa [Doc.get, hk] using h
      have hrest : Doc.get rest k = none :=
        Doc.get_eq_none_of_not_mem rest k (hk ▸ hnd.1)
      rw [Doc.applySet_cons, Doc.get_applySet_of_none rest _ k hrest, ← hk, hv2]
      exact Doc.get_set_self d kv.1 v
    · rw [Doc.applySet_cons]
      exact Doc.get_applySet_of_some rest _ k v hnd.2 (by simpa [Doc.get, hk] using h)

/-- C4 counterexample: a `PUT` with an empty body on a valid id that
matches a stored record does not succeed with modified-count 0: the
store rejects the resulting empty `$set` and the handler answers 500
"Error updating course" (the store itself is left unchanged). -/
theorem updateCourse_empty_update_counterexample :
    DB.findCourse
        ⟨[⟨"aaaaaaaaaaaaaaaaaaaaaaaa", [("title", JsValue.str "Old")]⟩], [], 1⟩
        (ObjectId.ofString "aaaaaaaaaaaaaaaaaaaaaaaa") =
      some ⟨"aaaaaaaaaaaaaaaaaaaaaaaa", [("title", JsValue.str "Old")]⟩ ∧
    putCourseById
        ⟨[⟨"aaaaaaaaaaaaaaaaaaaaaaaa", [("title", JsValue.str "Old")]⟩], [], 1⟩
        "aaaaaaaaaaaaaaaaaaaaaaaa" [] =
      ({ status := 500, success := false, message := "Error updating course",
         modifiedCount := none },
       ⟨[⟨"aaaaaaaaaaaaaaaaaaaaaaaa", [("title", JsValue.str "Old")]⟩], [], 1⟩) ∧
    (putCourseById
        ⟨[⟨"aaaaaaaaaaaaaaaaaaaaaaaa", [("title", JsValue.str "Old")]⟩], [], 1⟩
        "aaaaaaaaaaaaaaaaaaaaaaaa" []).1.status ≠ 200 := by decide

/-- C4 amended: `PUT /courses/:id` on a matched record, with an update
body that still names at least one field after the identifier is
stripped, applies a partial merge: the stored fields named by the
stripped body take the new values, every other field keeps its prior
value, every stored identifier is untouched, the enrollments collection
is untouched, and a matched-but-unchanged update still answers 200 with
modified-count 0.  (A body naming no field besides the identifier is
instead rejected by the store's empty-`$set` rule and answered 500.) -/
theorem updateCourse_partial_merge (db : DB) (id : String) (u : Doc) (course : Course)
    (hv : ObjectId.isValid id = true)
    (hfind : db.findCourse (ObjectId.ofString id) = some course)
    (hne : u.erase "_id" ≠ []) :
    (putCourseById db id u).1.status = 200 ∧
    (putCourseById db id u).1.success = true ∧
    (putCourseById db id u).1.modifiedCount =
      some (if course.doc.applySet (u.erase "_id") = course.doc then 0 else 1) ∧
    (putCourseById db id u).2.courses =
      db.courses.map (fun c =>
        if c.id = ObjectId.ofString id then
          { c with doc := course.doc.applySet (u.erase "_id") } else c) ∧
    (putCourseById db id u).2.enrollments = db.enrollments ∧
    (putCourseById db id u).2.courses.map Course.id = db.courses.map Course.id ∧
    (∀ k, (u.erase "_id").get k = none →
      (course.doc.applySet (u.erase "_id")).get k = course.doc.get k) ∧
    (((u.erase "_id").map Prod.fst).Nodup → ∀ k v,
      (u.erase "_id").get k = some v →
      (course.doc.applySet (u.erase "_id")).get k = some v) ∧
    (course.doc.applySet (u.erase "_id") = course.doc →
      (putCourseById db id u).1.modifiedCount = some 0) := by
  have hr : putCourseById db id u =
      ({ status := 200, success := true, message := "Course updated successfully",
         modifiedCount :=
           some (if course.doc.applySet (u.erase "_id") = course.doc then 0 else 1) },
       { db with courses := db.courses.map (fun c =>
          if c.id = ObjectId.ofString id then
            { c with doc := course.doc.applySet (u.erase "_id") } else c) }) := by
    simp [putCourseById, DB.updateCourse, hv, hfind, hne]
  rw [hr]
  refine ⟨rfl, rfl, rfl, rfl, rfl, ?_, ?_, ?_, ?_⟩
  · rw [List.map_map]
    apply List.map_congr_left
    intro c _
    by_cases hcid : c.id = ObjectId.ofString id <;> simp [Function.comp, hcid]
  · exact fun k hk => Doc.get_applySet_of_none (u.erase "_id") course.doc k hk
  · exact fun hnd k v hkv => Doc.get_applySet_of_some (u.erase "_id") course.doc k v hnd hkv
  · intro heq
    simp [heq]

theorem updateCourse_partial_merge_witness :
    ObjectId.isValid "aaaaaaaaaaaaaaaaaaaaaaaa" = true ∧
    DB.findCourse
        ⟨[⟨"aaaaaaaaaaaaaaaaaaaaaaaa",
           [("title", JsValue.str "Old"), ("price", JsValue.num 10)]⟩], [], 1⟩
        (ObjectId.ofString "aaaaaaaaaaaaaaaaaaaaaaaa") =
      some ⟨"aaaaaaaaaaaaaaaaaaaaaaaa",
        [("title", JsValue.str "Old"), ("price", JsValue.num 10)]⟩ ∧
    (putCourseById
        ⟨[⟨"aaaaaaaaaaaaaaaaaaaaaaaa",
           [("title", JsValue.str "Old"), ("price", JsValue.num 10)]⟩], [], 1⟩
        "aaaaaaaaaaaaaaaaaaaaaaaa"
        [("_id", JsValue.str "bbbbbbbbbbbbbbbbbbbbbbbb"),
         ("title", JsValue.str "New")]).1.status = 200 ∧
    (putCourseById
        ⟨[⟨"aaaaaaaaaaaaaaaaaaaaaaaa",
           [("title", JsValue.str "Old"), ("price", JsValue.num 10)]⟩], [], 1⟩
        "aaaaaaaaaaaaaaaaaaaaaaaa"
        [("_id", JsValue.str "bbbbbbbbbbbbbbbbbbbbbbbb"),
         ("title", JsValue.str "New")]).2.courses.map Course.id =
      ["aaaaaaaaaaaaaaaaaaaaaaaa"] :=
  by
    have h := updateCourse_partial_merge
      ⟨[⟨"aaaaaaaaaaaaaaaaaaaaaaaa",
         [("title", JsValue.str "Old"), ("price", JsValue.num 10)]⟩], [], 1⟩
      "aaaaaaaaaaaaaaaaaaaaaaaa"
      [("_id", JsValue.str "bbbbbbbbbbbbbbbbbbbbbbbb"), ("title", JsValue.str "New")]
      ⟨"aaaaaaaaaaaaaaaaaaaaaaaa",
       [("title", JsValue.str "Old"), ("price", JsValue.num 10)]⟩
      (by decide) (by decide) (by decide)
    exact ⟨by decide, by decide, h.1, h.2.2.2.2.2.1.trans (by decide)⟩

/-! ### C5: create/read round trip -/

/-- C5: a valid creation input omitting `isFeatured`, inserted into a
store whose fresh identifier is unused, reads back through
`GET /courses/:id` on the returned identifier as exactly the input
extended with the new identifier and `isFeatured = false`; in particular
the persisted record has `isFeatured = false`. -/
theorem createCourse_roundtrip (db : DB) (d : Doc)
    (ht : truthyOpt (d.get "title") = true)
    (hp : truthyOpt (d.get "price") = true)
    (hc : truthyOpt (d.get "category") = true)
    (hf : d.get "isFeatured" = none)
    (hfresh : ∀ c ∈ db.courses, c.id ≠ genOid db.nextId) :
    (postCourses db d).1.status = 201 ∧
    (postCourses db d).1.courseId = some (genOid db.nextId) ∧
    getCourseById (postCourses db d).2 (genOid db.nextId) =
      { status := 200, success := true, message := none,
        data := some (genOid db.nextId, d ++ [("isFeatured", JsValue.bool false)]) } ∧
    Doc.get (d ++ [("isFeatured", JsValue.bool false)]) "isFeatured" =
      some (JsValue.bool false) := by
  have hset : d.set "isFeatured" (JsValue.bool false) =
      d ++ [("isFeatured", JsValue.bool false)] :=
    Doc.set_of_get_none d _ _ hf
  have hpost : postCourses db d =
      ({ status := 201, success := true, message := "Course created successfully",
         courseId := some (genOid db.nextId) },
       { db with
          courses := db.courses ++
            [⟨genOid db.nextId, d ++ [("isFeatured", JsValue.bool false)]⟩],
          nextId := db.nextId + 1 }) := by
    simp [postCourses, ht, hp, hc, hf, hset]
  rw [hpost]
  refine ⟨rfl, rfl, ?_, ?_⟩
  · have hnone : db.courses.find? (fun c => c.id = genOid db.nextId) = none :=
      List.find?_eq_none.2 (by simpa using hfresh)
    simp [getCourseById, genOid_isValid, ofString_genOid, DB.findCourse,
      List.find?_append, hnone]
  · rw [Doc.get_append_right d _ _ hf]
    simp [Doc.get]

theorem createCourse_roundtrip_witness :
    truthyOpt (Doc.get [("title", JsValue.str "Intro"), ("price", JsValue.num 10),
        ("category", JsValue.str "Dev")] "title") = true ∧
    Doc.get [("title", JsValue.str "Intro"), ("price", JsValue.num 10),
        ("category", JsValue.str "Dev")] "isFeatured" = none ∧
    getCourseById
        (postCourses ⟨[], [], 0⟩
          [("title", JsValue.str "Intro"), ("price", JsValue.num 10),
           ("category", JsValue.str "Dev")]).2 (genOid 0) =
      { status := 200, success := true, message := none,
        data := some (genOid 0,
          [("title", JsValue.str "Intro"), ("price", JsValue.num 10),
           ("category", JsValue.str "Dev"), ("isFeatured", JsValue.bool false)]) } :=
  ⟨by decide, by decide,
   ((createCourse_roundtrip ⟨[], [], 0⟩
      [("title", JsValue.str "Intro"), ("price", JsValue.num 10),
       ("category", JsValue.str "Dev")]
      (by decide) (by decide) (by decide) (by decide) (by simp)).2.2.1).trans
     (by decide)⟩

/-! ### C1: the joined enrollment listing -/

theorem populate_eq_filterMap (db : DB) (es : List Enrollment) :
    populate db es = es.filterMap (fun e =>
      (db.findCourse (ObjectId.ofString e.courseId)).map
        (fun c => ⟨e.id, e.userEmail, e.enrolledAt, (c.id, c.doc)⟩)) := by
  induction es with
  | nil => rfl
  | cons e rest ih =>
    rw [List.filterMap_cons]
    cases h : db.findCourse (ObjectId.ofString e.courseId) with
    | none => simp [populate, h, ih]
    | some c => simp [populate, h, ih]

/-- C1: for a present `userEmail`, `GET /enrollments` answers 200 and its
`data` is exactly the best-effort join: one item per stored enrollment
whose `userEmail` matches the query exactly and whose referenced course
is still found in the courses collection, each item embedding the full
course record, with enrollments of deleted courses omitted; the reported
`count` is the number of returned items. -/
theorem listByUser_spec (db : DB) (u : String) (hu : u ≠ "") :
    (getEnrollments db u).status = 200 ∧
    (getEnrollments db u).success = true ∧
    (getEnrollments db u).message = none ∧
    ∃ l, (getEnrollments db u).data = some l ∧
      (getEnrollments db u).count = some l.length ∧
      l = (db.enrollments.filter (fun e => e.userEmail = u)).filterMap
            (fun e => (db.findCourse (ObjectId.ofString e.courseId)).map
              (fun c => ⟨e.id, e.userEmail, e.enrolledAt, (c.id, c.doc)⟩)) ∧
      (∀ v ∈ l, v.userEmail = u ∧
        ∃ e ∈ db.enrollments, e.userEmail = u ∧
          ∃ c, db.findCourse (ObjectId.ofString e.courseId) = some c ∧
            v = ⟨e.id, e.userEmail, e.enrolledAt, (c.id, c.doc)⟩) ∧
      (∀ e ∈ db.enrollments, e.userEmail = u →
        ∀ c, db.findCourse (ObjectId.ofString e.courseId) = some c →
          (⟨e.id, e.userEmail, e.enrolledAt, (c.id, c.doc)⟩ : EnrolledView) ∈ l) := by
  have hget : getEnrollments db u =
      { status := 200, success := true, message := none,
        count := some (populate db
          (db.enrollments.filter (fun e => e.userEmail = u))).length,
        data := some (populate db
          (db.enrollments.filter (fun e => e.userEmail = u))) } := by
    simp [getEnrollments, hu]
  rw [hget]
  refine ⟨rfl, rfl, rfl,
    populate db (db.enrollments.filter (fun e => e.userEmail = u)),
    rfl, rfl, populate_eq_filterMap db _, ?_, ?_⟩
  · intro v hv
    rw [populate_eq_filterMap db, List.mem_filterMap] at hv
    obtain ⟨e, he, hmap⟩ := hv
    rw [List.mem_filter] at he
    obtain ⟨hemem, hemail⟩ := he
    rw [Option.map_eq_some'] at hmap
    obtain ⟨c, hcfind, hcv⟩ := hmap
    rw [decide_eq_true_eq] at hemail
    refine ⟨by rw [← hcv, hemail], e, hemem, hemail, c, hcfind, hcv.symm⟩
  · intro e hemem hemail c hcfind
    rw [populate_eq_filterMap db, List.mem_filterMap]
    exact ⟨e, List.mem_filter.2 ⟨hemem, by simp [hemail]⟩, by rw [hcfind]; rfl⟩

theorem listByUser_spec_witness :
    ("a@b.c" : String) ≠ "" ∧
    getEnrollments
        ⟨[⟨"aaaaaaaaaaaaaaaaaaaaaaaa", [("title", JsValue.str "Intro")]⟩],
         [⟨"cccccccccccccccccccccccc", "a@b.c", "aaaaaaaaaaaaaaaaaaaaaaaa", 3⟩,
          ⟨"dddddddddddddddddddddddd", "a@b.c", "bbbbbbbbbbbbbbbbbbbbbbbb", 4⟩,
          ⟨"eeeeeeeeeeeeeeeeeeeeeeee", "x@y.z", "aaaaaaaaaaaaaaaaaaaaaaaa", 5⟩],
         2⟩ "a@b.c" =
      { status := 200, success := true, message := none, count := some 1,
        data := some [⟨"cccccccccccccccccccccccc", "a@b.c", 3,
          ("aaaaaaaaaaaaaaaaaaaaaaaa", [("title", JsValue.str "Intro")])⟩] } := by
  constructor
  · decide
  · have h := listByUser_spec
      ⟨[⟨"aaaaaaaaaaaaaaaaaaaaaaaa", [("title", JsValue.str "Intro")]⟩],
       [⟨"cccccccccccccccccccccccc", "a@b.c", "aaaaaaaaaaaaaaaaaaaaaaaa", 3⟩,
        ⟨"dddddddddddddddddddddddd", "a@b.c", "bbbbbbbbbbbbbbbbbbbbbbbb", 4⟩,
        ⟨"eeeeeeeeeeeeeeeeeeeeeeee", "x@y.z", "aaaaaaaaaaaaaaaaaaaaaaaa", 5⟩],
       2⟩ "a@b.c" (by decide)
    obtain ⟨h1, h2, h3, l, hdata, hcount, hl, -, -⟩ := h
    have hlval : l = [⟨"cccccccccccccccccccccccc", "a@b.c", 3,
        ("aaaaaaaaaaaaaaaaaaaaaaaa", [("title", JsValue.str "Intro")])⟩] := by
      rw [hl]; decide
    cases hres : getEnrollments
        ⟨[⟨"aaaaaaaaaaaaaaaaaaaaaaaa", [("title", JsValue.str "Intro")]⟩],
         [⟨"cccccccccccccccccccccccc", "a@b.c", "aaaaaaaaaaaaaaaaaaaaaaaa", 3⟩,
          ⟨"dddddddddddddddddddddddd", "a@b.c", "bbbbbbbbbbbbbbbbbbbbbbbb", 4⟩,
          ⟨"eeeeeeeeeeeeeeeeeeeeeeee", "x@y.z", "aaaaaaaaaaaaaaaaaaaaaaaa", 5⟩],
         2⟩ "a@b.c" with
    | mk st su me co da =>
      rw [hres] at h1 h2 h3 hdata hcount
      simp only at h1 h2 h3 hdata hcount
      rw [h1, h2, h3, hdata, hcount, hlval]
      rfl

end OLP
